import Mathlib

/-!
Verification of the CoinMoney decision-and-allocation core.

Shallow embedding of:
- `src/ai/credit_system.py` (CreditSystem)
- `src/master/global_risk.py` (GlobalRiskManager)
- `src/ai/ai_call_trigger.py` (AICallTrigger)
- `src/master/controller_v3.py` (SmartMasterController merge / strategy adjust)
- `src/master/portfolio_manager.py` (PortfolioManager allocation, DynamicWorkerManager)

Python floats are modelled as rationals, calendar dates as natural day
numbers, timestamps as rational seconds.  Stateful methods become pure
functions mapping the old state (plus inputs) to the new state and the
returned value.
-/

/- ═══════════════════════ CreditSystem (src/ai/credit_system.py) ═══════════════════════ -/

/-- An AI action whose credit cost is looked up in `CreditSystem.costs`;
`other` stands for any key missing from the dict (`costs.get(action, 1)`). -/
inductive CreditAction
  | single_ai
  | debate
  | emergency
  | other
deriving DecidableEq, Repr

/-- `self.costs.get(action, 1)` from `CreditSystem.__init__`. -/
def creditCost : CreditAction → ℤ
  | .single_ai => 1
  | .debate => 2
  | .emergency => 3
  | .other => 1

/-- The persisted ledger fields that `load_credits` reads from
`data/ai_credits.json`: the stored date and the used counter. -/
structure StoredCredits where
  date : ℕ
  used : ℤ
deriving DecidableEq, Repr

/-- The in-memory ledger plus the date that `save_credits` wrote last:
`save_credits` always stamps `datetime.now()`, so after any save the
stored date is the current day. -/
structure CreditLedger where
  date : ℕ
  used : ℤ
  daily_limit : ℤ
deriving DecidableEq, Repr

/-- `CreditSystem.load_credits` followed by the unconditional `save_credits`:
a stored file dated today keeps its `used`; any other stored date (or a
missing file, `none`) resets `used` to 0.  The result is stamped with today. -/
def loadCredits (stored : Option StoredCredits) (today : ℕ) (limit : ℤ) : CreditLedger :=
  match stored with
  | none => ⟨today, 0, limit⟩
  | some s => if s.date = today then ⟨today, s.used, limit⟩ else ⟨today, 0, limit⟩

/-- `CreditSystem.get_remaining`: `max(0, daily_limit - used)`. -/
def getRemaining (st : CreditLedger) : ℤ :=
  max 0 (st.daily_limit - st.used)

/-- `CreditSystem.can_use`: `remaining >= cost`.  Note: no date is consulted. -/
def canUse (st : CreditLedger) (a : CreditAction) : Bool :=
  if creditCost a ≤ getRemaining st then true else false

/-- `CreditSystem.use_credit`: check `can_use`, then `used += cost` and
`save_credits` (which stamps today's date).  On failure nothing is written.
No date comparison happens anywhere on this path. -/
def useCredit (st : CreditLedger) (today : ℕ) (a : CreditAction) : CreditLedger × Bool :=
  if canUse st a then ({ st with used := st.used + creditCost a, date := today }, true)
  else (st, false)

lemma cost_pos (a : CreditAction) : 0 < creditCost a := by
  cases a <;> norm_num [creditCost]

/-- C1: if the action's fixed cost is at most the remaining budget,
`use_credit` adds exactly that cost to `used` and returns true, and the
post-state satisfies `0 ≤ used ≤ daily_limit`; if the cost exceeds the
remaining budget it returns false and leaves the ledger unchanged. -/
theorem use_credit_spec (st : CreditLedger) (today : ℕ) (a : CreditAction)
    (hused : 0 ≤ st.used) :
    (creditCost a ≤ getRemaining st →
      useCredit st today a = ({ st with used := st.used + creditCost a, date := today }, true) ∧
      0 ≤ st.used + creditCost a ∧ st.used + creditCost a ≤ st.daily_limit) ∧
    (getRemaining st < creditCost a →
      useCredit st today a = (st, false)) := by
  constructor
  · intro hle
    have hcan : canUse st a = true := by
      simp [canUse, hle]
    refine ⟨by simp [useCredit, hcan], ?_, ?_⟩
    · have := cost_pos a
      linarith
    · have hmax : creditCost a ≤ max 0 (st.daily_limit - st.used) := hle
      rcases le_max_iff.mp hmax with h0 | h1
      · exact absurd h0 (not_le.mpr (cost_pos a))
      · linarith
  · intro hlt
    have hcan : canUse st a = false := by
      simp [canUse, not_le.mpr hlt]
    simp [useCredit, hcan]

/-- Witness for C1 at a concrete ledger: limit 50, used 0, single call. -/
theorem use_credit_spec_witness :
    (0 : ℤ) ≤ (0 : ℤ) ∧
    creditCost .single_ai ≤ getRemaining ⟨0, 0, 50⟩ ∧
    useCredit ⟨0, 0, 50⟩ 0 .single_ai = (⟨0, 1, 50⟩, true) ∧
    getRemaining ⟨3, 49, 50⟩ < creditCost .debate ∧
    useCredit ⟨3, 49, 50⟩ 4 .debate = (⟨3, 49, 50⟩, false) :=
  ⟨le_refl 0, by decide,
    ((use_credit_spec ⟨0, 0, 50⟩ 0 .single_ai (by decide)).1 (by decide)).1,
    by decide,
    (use_credit_spec ⟨3, 49, 50⟩ 4 .debate (by decide)).2 (by decide)⟩

/-- C2 counterexample: with stored date day 0, used 5, limit 50, an access
(`use_credit`) on day 1 does NOT reset `used` to 0 first: the new `used` is
6, not the 1 the claim predicts after a reset.  The accessor never consults
the date; the reset lives only in `load_credits`. -/
theorem daily_reset_on_access_counterexample :
    (useCredit ⟨0, 5, 50⟩ 1 .single_ai).1.used = 6 ∧ (6 : ℤ) ≠ 1 := by
  constructor
  · decide
  · decide

/-- C2 amended: the daily reset happens only in `load_credits` (run at
construction): loading a stored ledger dated today preserves `used`, loading
any other stored date resets `used` to 0; and the outcome of `use_credit`
is independent of the calendar day of the access (the day only stamps the
saved file). -/
theorem daily_reset_load_only :
    (∀ (s : StoredCredits) (today : ℕ) (limit : ℤ), s.date = today →
      loadCredits (some s) today limit = ⟨today, s.used, limit⟩) ∧
    (∀ (s : StoredCredits) (today : ℕ) (limit : ℤ), s.date ≠ today →
      loadCredits (some s) today limit = ⟨today, 0, limit⟩) ∧
    (∀ (st : CreditLedger) (d₁ d₂ : ℕ) (a : CreditAction),
      (useCredit st d₁ a).1.used = (useCredit st d₂ a).1.used ∧
      (useCredit st d₁ a).2 = (useCredit st d₂ a).2) := by
  refine ⟨?_, ?_, ?_⟩
  · intro s today limit h
    simp [loadCredits, h]
  · intro s today limit h
    simp [loadCredits, h]
  · intro st d₁ d₂ a
    by_cases h : canUse st a = true
    · simp [useCredit, h]
    · simp [useCredit, h]

/-- Witness for C2 amended: same-day load keeps used = 7; next-day load
resets to 0; spending on day 1 and on day 9 from the same state changes
`used` identically. -/
theorem daily_reset_load_only_witness :
    loadCredits (some ⟨5, 7⟩) 5 50 = ⟨5, 7, 50⟩ ∧
    loadCredits (some ⟨5, 7⟩) 6 50 = ⟨6, 0, 50⟩ ∧
    (useCredit ⟨0, 5, 50⟩ 1 .single_ai).1.used = (useCredit ⟨0, 5, 50⟩ 9 .single_ai).1.used :=
  ⟨daily_reset_load_only.1 ⟨5, 7⟩ 5 50 (by decide),
    daily_reset_load_only.2.1 ⟨5, 7⟩ 6 50 (by decide),
    (daily_reset_load_only.2.2 ⟨0, 5, 50⟩ 1 9 .single_ai).1⟩

/- ═══════════════════════ GlobalRiskManager (src/master/global_risk.py) ═══════════════════════ -/

/-- The `GLOBAL_RISK` configuration block from `config/master_config.py`. -/
structure RiskConfig where
  daily_loss_limit : ℚ
  max_consecutive_losses : ℕ
  account_drawdown_limit : ℚ
  max_positions_spot : ℕ
  max_positions_futures : ℕ
  max_trades_spot : ℕ
  max_trades_futures : ℕ
deriving DecidableEq, Repr

/-- The values shipped in `config/master_config.py`: 5% daily loss, 4
consecutive losses, 15% drawdown, 2/1 positions, 15/10 daily trades. -/
def defaultRiskConfig : RiskConfig :=
  ⟨1/20, 4, 3/20, 2, 1, 15, 10⟩

/-- The snapshot `state_manager` hands to the risk checks: daily loss
fraction, consecutive-loss count, max drawdown, open positions and trades
per market. -/
structure RiskStats where
  daily_loss_percent : ℚ
  consecutive_losses : ℕ
  max_drawdown : ℚ
  spot_positions : ℕ
  futures_positions : ℕ
  spot_trades : ℕ
  futures_trades : ℕ
deriving DecidableEq, Repr

/-- The stop reason assembled by `check_risk_limits`; each constructor is
one of the f-strings, carrying the quantity the string interpolates. -/
inductive StopReason
  | dailyLoss (percent : ℚ)
  | consecutive (count : ℕ)
  | drawdown (percent : ℚ)
deriving DecidableEq, Repr

/-- The `GlobalRiskManager` mutable state: the latch `trading_enabled` and
`emergency_stop_reason`. -/
structure RiskState where
  trading_enabled : Bool
  emergency_stop_reason : Option StopReason
deriving DecidableEq, Repr

/-- Market side passed to `can_open_position`. -/
inductive Exchange
  | spot
  | futures
deriving DecidableEq, Repr

/-- The reason tuple component returned by `can_open_position`. -/
inductive BlockReason
  | emergencyStopped (r : Option StopReason)
  | risk (r : Option StopReason)
  | spotPositions (n : ℕ)
  | futuresPositions (n : ℕ)
  | spotTrades (n : ℕ)
  | futuresTrades (n : ℕ)
deriving DecidableEq, Repr

/-- `_check_daily_loss().exceeded`: `abs(daily_loss_percent) >= limit`. -/
def dailyLossExceeded (cfg : RiskConfig) (stats : RiskStats) : Bool :=
  if cfg.daily_loss_limit ≤ |stats.daily_loss_percent| then true else false

/-- `_check_consecutive_losses().exceeded`: `consecutive >= limit`. -/
def consecutiveExceeded (cfg : RiskConfig) (stats : RiskStats) : Bool :=
  if cfg.max_consecutive_losses ≤ stats.consecutive_losses then true else false

/-- `_check_account_drawdown().exceeded`: `max_drawdown >= limit`. -/
def drawdownExceeded (cfg : RiskConfig) (stats : RiskStats) : Bool :=
  if cfg.account_drawdown_limit ≤ stats.max_drawdown then true else false

/-- `GlobalRiskManager.emergency_stop`: a no-op when already stopped (the
first reason is kept), otherwise clears the latch and records the reason. -/
def emergencyStop (st : RiskState) (r : Option StopReason) : RiskState :=
  if st.trading_enabled = false then st
  else ⟨false, r⟩

/-- `GlobalRiskManager.resume_trading`: the only way the latch re-opens. -/
def resumeTrading (_ : RiskState) : RiskState :=
  ⟨true, none⟩

/-- Keeps the first reason, mirroring `stop_reason = stop_reason or new`. -/
def orReason (a b : Option StopReason) : Option StopReason :=
  match a with
  | some r => some r
  | none => b

/-- Result dict of `check_risk_limits` (warnings omitted: no claim reads
them). -/
structure RiskCheckResult where
  trading_allowed : Bool
  emergency_stop : Bool
  reason : Option StopReason
deriving DecidableEq, Repr

/-- `GlobalRiskManager.check_risk_limits`: evaluates the three hard limits,
accumulates the first breaching reason, latches via `emergency_stop` on any
breach, and reports `trading_allowed = trading_enabled and not
emergency_stop` using the post-latch `trading_enabled`. -/
def checkRiskLimits (st : RiskState) (cfg : RiskConfig) (stats : RiskStats) :
    RiskState × RiskCheckResult :=
  let r1 : Option StopReason :=
    if dailyLossExceeded cfg stats then some (.dailyLoss (|stats.daily_loss_percent| * 100)) else none
  let r2 : Option StopReason :=
    if consecutiveExceeded cfg stats then orReason r1 (some (.consecutive stats.consecutive_losses)) else r1
  let r3 : Option StopReason :=
    if drawdownExceeded cfg stats then orReason r2 (some (.drawdown (stats.max_drawdown * 100))) else r2
  let es : Bool := dailyLossExceeded cfg stats || consecutiveExceeded cfg stats || drawdownExceeded cfg stats
  let st' : RiskState := if es then emergencyStop st r3 else st
  (st', ⟨st'.trading_enabled && !es, es, r3⟩)

/-- Return value of `can_open_position` together with the mutated manager
state. -/
structure OpenCheck where
  state : RiskState
  allowed : Bool
  reason : Option BlockReason
deriving DecidableEq, Repr

/-- `GlobalRiskManager.can_open_position`: a set latch short-circuits with
the stored stop reason; otherwise the risk limits are re-checked (possibly
setting the latch), then per-market position and trade caps. -/
def canOpenPosition (st : RiskState) (cfg : RiskConfig) (stats : RiskStats) (ex : Exchange) :
    OpenCheck :=
  if st.trading_enabled = false then
    ⟨st, false, some (.emergencyStopped st.emergency_stop_reason)⟩
  else
    let st' := (checkRiskLimits st cfg stats).1
    let chk := (checkRiskLimits st cfg stats).2
    if chk.trading_allowed = false then ⟨st', false, some (.risk chk.reason)⟩
    else if ex = .spot ∧ cfg.max_positions_spot ≤ stats.spot_positions then
      ⟨st', false, some (.spotPositions stats.spot_positions)⟩
    else if ex = .futures ∧ cfg.max_positions_futures ≤ stats.futures_positions then
      ⟨st', false, some (.futuresPositions stats.futures_positions)⟩
    else if ex = .spot ∧ cfg.max_trades_spot ≤ stats.spot_trades then
      ⟨st', false, some (.spotTrades stats.spot_trades)⟩
    else if ex = .futures ∧ cfg.max_trades_futures ≤ stats.futures_trades then
      ⟨st', false, some (.futuresTrades stats.futures_trades)⟩
    else
      ⟨st', true, none⟩

/-- C3: when the consecutive-loss limit is breached (and the daily-loss
limit is not, so the reason names consecutive losses) the check denies
opening, names the breaching condition, and sets the latch; once the latch
is set every later check denies with the stored reason no matter what the
stats now say; `resume_trading` (and only it) clears the latch, after which
a breach-free check allows opening again. -/
theorem risk_latch_sticky :
    (∀ (st : RiskState) (cfg : RiskConfig) (stats : RiskStats) (ex : Exchange),
      st.trading_enabled = true →
      |stats.daily_loss_percent| < cfg.daily_loss_limit →
      cfg.max_consecutive_losses ≤ stats.consecutive_losses →
      (canOpenPosition st cfg stats ex).allowed = false ∧
      (canOpenPosition st cfg stats ex).reason =
        some (.risk (some (.consecutive stats.consecutive_losses))) ∧
      (canOpenPosition st cfg stats ex).state =
        ⟨false, some (.consecutive stats.consecutive_losses)⟩) ∧
    (∀ (st : RiskState) (cfg : RiskConfig) (stats : RiskStats) (ex : Exchange),
      st.trading_enabled = false →
      canOpenPosition st cfg stats ex =
        ⟨st, false, some (.emergencyStopped st.emergency_stop_reason)⟩) ∧
    (∀ st : RiskState, resumeTrading st = ⟨true, none⟩) ∧
    (∀ (st : RiskState) (cfg : RiskConfig) (stats : RiskStats) (ex : Exchange),
      |stats.daily_loss_percent| < cfg.daily_loss_limit →
      stats.consecutive_losses < cfg.max_consecutive_losses →
      stats.max_drawdown < cfg.account_drawdown_limit →
      stats.spot_positions < cfg.max_positions_spot →
      stats.futures_positions < cfg.max_positions_futures →
      stats.spot_trades < cfg.max_trades_spot →
      stats.futures_trades < cfg.max_trades_futures →
      (canOpenPosition (resumeTrading st) cfg stats ex).allowed = true) := by
  refine ⟨?_, ?_, ?_, ?_⟩
  · intro st cfg stats ex hen hdaily hconsec
    have hd : dailyLossExceeded cfg stats = false := by
      simp [dailyLossExceeded, not_le.mpr hdaily]
    have hc : consecutiveExceeded cfg stats = true := by
      simp [consecutiveExceeded, hconsec]
    have hstep :
        checkRiskLimits st cfg stats =
          (⟨false, some (.consecutive stats.consecutive_losses)⟩,
            ⟨false, true, some (.consecutive stats.consecutive_losses)⟩) := by
      by_cases hdd : drawdownExceeded cfg stats = true <;>
        simp [checkRiskLimits, hd, hc, hdd, orReason, emergencyStop, hen]
    simp [canOpenPosition, hen, hstep]
  · intro st cfg stats ex hdis
    simp [canOpenPosition, hdis]
  · intro st
    rfl
  · intro st cfg stats ex hdaily hconsec hdd hsp hfp hst hft
    have hd : dailyLossExceeded cfg stats = false := by
      simp [dailyLossExceeded, not_le.mpr hdaily]
    have hc : consecutiveExceeded cfg stats = false := by
      simp [consecutiveExceeded, not_le.mpr hconsec]
    have hdd' : drawdownExceeded cfg stats = false := by
      simp [drawdownExceeded, not_le.mpr hdd]
    have hstep :
        checkRiskLimits ⟨true, none⟩ cfg stats =
          (⟨true, none⟩, ⟨true, false, none⟩) := by
      simp [checkRiskLimits, hd, hc, hdd']
    cases ex <;>
      simp [canOpenPosition, resumeTrading, hstep, not_le.mpr hsp, not_le.mpr hfp,
        not_le.mpr hst, not_le.mpr hft]

/-- Witness for C3 with the shipped config: 4 consecutive losses (limit 4)
latch the manager with a reason naming consecutive losses; the latched state
keeps refusing even with losses back at 0; resume plus clean stats allows. -/
theorem risk_latch_sticky_witness :
    ((true : Bool) = true ∧ |(0 : ℚ)| < defaultRiskConfig.daily_loss_limit ∧
      defaultRiskConfig.max_consecutive_losses ≤ 4 ∧
      (canOpenPosition ⟨true, none⟩ defaultRiskConfig ⟨0, 4, 0, 0, 0, 0, 0⟩ .spot).allowed = false ∧
      (canOpenPosition ⟨true, none⟩ defaultRiskConfig ⟨0, 4, 0, 0, 0, 0, 0⟩ .spot).reason =
        some (.risk (some (.consecutive 4)))) ∧
    (canOpenPosition ⟨false, some (.consecutive 4)⟩ defaultRiskConfig ⟨0, 0, 0, 0, 0, 0, 0⟩ .spot =
      ⟨⟨false, some (.consecutive 4)⟩, false, some (.emergencyStopped (some (.consecutive 4)))⟩) ∧
    (canOpenPosition (resumeTrading ⟨false, some (.consecutive 4)⟩) defaultRiskConfig
      ⟨0, 0, 0, 0, 0, 0, 0⟩ .spot).allowed = true := by
  refine ⟨⟨rfl, by norm_num [defaultRiskConfig], by norm_num [defaultRiskConfig], ?_, ?_⟩, ?_, ?_⟩
  · exact (risk_latch_sticky.1 ⟨true, none⟩ defaultRiskConfig ⟨0, 4, 0, 0, 0, 0, 0⟩ .spot rfl
      (by norm_num [defaultRiskConfig]) (by norm_num [defaultRiskConfig])).1
  · exact (risk_latch_sticky.1 ⟨true, none⟩ defaultRiskConfig ⟨0, 4, 0, 0, 0, 0, 0⟩ .spot rfl
      (by norm_num [defaultRiskConfig]) (by norm_num [defaultRiskConfig])).2.1
  · exact risk_latch_sticky.2.1 ⟨false, some (.consecutive 4)⟩ defaultRiskConfig
      ⟨0, 0, 0, 0, 0, 0, 0⟩ .spot rfl
  · exact risk_latch_sticky.2.2.2 ⟨false, some (.consecutive 4)⟩ defaultRiskConfig
      ⟨0, 0, 0, 0, 0, 0, 0⟩ .spot (by norm_num [defaultRiskConfig])
      (by norm_num [defaultRiskConfig]) (by norm_num [defaultRiskConfig])
      (by norm_num [defaultRiskConfig]) (by norm_num [defaultRiskConfig])
      (by norm_num [defaultRiskConfig]) (by norm_num [defaultRiskConfig])

/- ═══════════════════════ AICallTrigger (src/ai/ai_call_trigger.py) ═══════════════════════ -/

/-- `analysis['rsi']['signal']` as read by `_check_indicator_conflicts`. -/
inductive RsiSignal
  | oversold
  | overbought
  | neutral
deriving DecidableEq, Repr

/-- `analysis['macd']['signal']`. -/
inductive MacdSignal
  | bullish
  | bearish
  | neutral
deriving DecidableEq, Repr

/-- `analysis['ma']['trend']` values the trigger compares against. -/
inductive MaTrend
  | strongUptrend
  | uptrend
  | downtrend
  | strongDowntrend
  | unknown
deriving DecidableEq, Repr

/-- The fields of `technical_analyzer.analyze(df)` that the trigger reads
(the analyzer itself is an excluded external collaborator; its output is an
input here). `rsi` default 50, `bbPosition` default 0.5. -/
structure TechAnalysis where
  rsi : ℚ
  rsiSignal : RsiSignal
  macdBullCross : Bool
  macdBearCross : Bool
  macdSignal : MacdSignal
  bbPosition : ℚ
  maTrend : MaTrend
deriving DecidableEq, Repr

/-- The values `should_call_ai` reads out of `market_data` and its
dataframe: current price, presence/length of the frame, the specific closes,
volumes and extremes the checks index, and the technical analysis. -/
structure MarketData where
  price : ℚ
  hasDf : Bool
  dfLen : ℕ
  close5mAgo : ℚ
  close1hAgo : ℚ
  recentVolume : ℚ
  avgVolume : ℚ
  recentHigh : ℚ
  recentLow : ℚ
  analysis : TechAnalysis
deriving DecidableEq, Repr

/-- `news_data` fields: urgency (0–10 scale), emergency flag, 1h count. -/
structure NewsData where
  urgency : ℚ
  emergency : Bool
  count_1h : ℕ
deriving DecidableEq, Repr

/-- `position_data` fields with their `.get` defaults supplied by callers. -/
structure PositionData where
  pnl_ratio : ℚ
  stop_loss : ℚ
  take_profit : ℚ
  trailing_stop_risk : Bool
  risk_score : ℚ
deriving DecidableEq, Repr

/-- `abs((current_price - price_5m_ago) / price_5m_ago * 100)`. -/
def change5m (m : MarketData) : ℚ :=
  |(m.price - m.close5mAgo) / m.close5mAgo * 100|

/-- 5-minute price-change sub-score: fires at 3%, `min(change*5, 30)`. -/
def sub5m (m : MarketData) : ℚ :=
  if 3 ≤ change5m m then min (change5m m * 5) 30 else 0

/-- `abs((current_price - price_1h_ago) / price_1h_ago * 100)`. -/
def change1h (m : MarketData) : ℚ :=
  |(m.price - m.close1hAgo) / m.close1hAgo * 100|

/-- 1-hour price-change sub-score: fires at 5%, `min(change*3, 25)`. -/
def sub1h (m : MarketData) : ℚ :=
  if 5 ≤ change1h m then min (change1h m * 3) 25 else 0

/-- Volume-surge sub-score: guarded by `avg_volume > 0`, fires at ratio 2.5,
`min((ratio-1)*10, 20)`. -/
def subVolume (m : MarketData) : ℚ :=
  if 0 < m.avgVolume then
    if 5/2 ≤ m.recentVolume / m.avgVolume then
      min ((m.recentVolume / m.avgVolume - 1) * 10) 20
    else 0
  else 0

/-- Range-volatility sub-score: fires at 5%, `min(vol*2, 15)`. -/
def subVolatility (m : MarketData) : ℚ :=
  if 5 ≤ (m.recentHigh - m.recentLow) / m.price * 100 then
    min ((m.recentHigh - m.recentLow) / m.price * 100 * 2) 15
  else 0

/-- `AICallTrigger._check_market_events` total score.  Branches are gated on
dataframe length exactly as in the source; a zero denominator raises
`ZeroDivisionError` inside the `try`, so everything from that branch on is
dropped and the score accumulated so far is returned. -/
def checkMarketEvents (m : MarketData) : ℚ :=
  if m.hasDf = false ∨ m.dfLen < 2 then 0
  else if 5 ≤ m.dfLen ∧ m.close5mAgo = 0 then 0
  else
    let s5 := if 5 ≤ m.dfLen then sub5m m else 0
    if 60 ≤ m.dfLen ∧ m.close1hAgo = 0 then s5
    else
      let s1 := if 60 ≤ m.dfLen then sub1h m else 0
      let sv := if 20 ≤ m.dfLen then subVolume m else 0
      if 24 ≤ m.dfLen ∧ m.price = 0 then s5 + s1 + sv
      else s5 + s1 + sv + (if 24 ≤ m.dfLen then subVolatility m else 0)

/-- RSI-extremity sub-score: `(30 - rsi) * 0.5` below 25 (comment in the
source documents this as capped at 12.5), `(rsi - 70) * 0.5` above 75
(documented cap 15). -/
def subRsi (a : TechAnalysis) : ℚ :=
  if a.rsi ≤ 25 then (30 - a.rsi) * (1/2)
  else if 75 ≤ a.rsi then (a.rsi - 70) * (1/2)
  else 0

/-- MACD golden/death cross sub-score: flat 15 points either way. -/
def subMacdCross (a : TechAnalysis) : ℚ :=
  if a.macdBullCross then 15 else if a.macdBearCross then 15 else 0

/-- Bollinger-band touch sub-score: flat 10 at either band. -/
def subBollinger (a : TechAnalysis) : ℚ :=
  if a.bbPosition ≤ 1/10 then 10 else if 9/10 ≤ a.bbPosition then 10 else 0

/-- Moving-average alignment sub-score: flat 12 on a strong trend. -/
def subMaAlign (a : TechAnalysis) : ℚ :=
  if a.maTrend = .strongUptrend ∨ a.maTrend = .strongDowntrend then 12 else 0

/-- `AICallTrigger._check_technical_events` total score (gated on a frame of
at least 20 rows). -/
def checkTechnicalEvents (m : MarketData) : ℚ :=
  if m.hasDf = false ∨ m.dfLen < 20 then 0
  else subRsi m.analysis + subMacdCross m.analysis + subBollinger m.analysis +
    subMaAlign m.analysis

/-- Important-news sub-score: fires at urgency 6.5, `urgency * 4`
(documented as max 40 on the 0–10 urgency scale). -/
def subNewsImportant (n : NewsData) : ℚ :=
  if 13/2 ≤ n.urgency then n.urgency * 4 else 0

/-- Emergency-news sub-score: flat 50 points. -/
def subNewsEmergency (n : NewsData) : ℚ :=
  if n.emergency then 50 else 0

/-- News-count-surge sub-score: fires at 5 per hour, `min(count*2, 15)`. -/
def subNewsSurge (n : NewsData) : ℚ :=
  if 5 ≤ n.count_1h then min ((n.count_1h : ℚ) * 2) 15 else 0

/-- `AICallTrigger._check_news_events` total score. -/
def checkNewsEvents (n : NewsData) : ℚ :=
  subNewsImportant n + subNewsEmergency n + subNewsSurge n

/-- Stop-loss / take-profit proximity sub-score (mutually exclusive `elif`):
20 near stop-loss, 18 near take-profit, proximity 0.02. -/
def subPnlCritical (p : PositionData) : ℚ :=
  if |p.pnl_ratio - p.stop_loss| ≤ 1/50 then 20
  else if |p.pnl_ratio - p.take_profit| ≤ 1/50 then 18
  else 0

/-- Trailing-stop-risk sub-score: flat 15. -/
def subTrailing (p : PositionData) : ℚ :=
  if p.trailing_stop_risk then 15 else 0

/-- Position-risk sub-score: fires at 0.8, `min(risk*25, 20)`. -/
def subRisk (p : PositionData) : ℚ :=
  if 4/5 ≤ p.risk_score then min (p.risk_score * 25) 20 else 0

/-- `AICallTrigger._check_position_events` total score. -/
def checkPositionEvents (p : PositionData) : ℚ :=
  subPnlCritical p + subTrailing p + subRisk p

/-- RSI-vs-MACD conflict sub-score: flat 15. -/
def subConflictRsiMacd (a : TechAnalysis) : ℚ :=
  if (a.rsiSignal = .oversold ∧ a.macdSignal = .bearish) ∨
     (a.rsiSignal = .overbought ∧ a.macdSignal = .bullish) then 15 else 0

/-- Price-vs-trend conflict sub-score: flat 12. -/
def subConflictPriceTrend (a : TechAnalysis) : ℚ :=
  if (a.bbPosition ≤ 1/5 ∧ a.maTrend = .downtrend) ∨
     (4/5 ≤ a.bbPosition ∧ a.maTrend = .uptrend) then 12 else 0

/-- `AICallTrigger._check_indicator_conflicts` total score. -/
def checkIndicatorConflicts (m : MarketData) : ℚ :=
  if m.hasDf = false ∨ m.dfLen < 20 then 0
  else subConflictRsiMacd m.analysis + subConflictPriceTrend m.analysis

/-- Sum of all trigger sub-scores, in the order `should_call_ai` adds them;
absent news / position data contribute nothing. -/
def totalScore (m : MarketData) (news : Option NewsData) (pos : Option PositionData) : ℚ :=
  checkMarketEvents m + checkTechnicalEvents m +
  (match news with | some n => checkNewsEvents n | none => 0) +
  (match pos with | some p => checkPositionEvents p | none => 0) +
  checkIndicatorConflicts m

/-- `AICallTrigger._is_emergency`: emergency news flag, or a 5-minute drop
of at least 5% (a zero 5-minutes-ago close raises inside the `try` and
falls through to `False`). -/
def isEmergency (m : MarketData) (news : Option NewsData) : Bool :=
  if (match news with | some n => n.emergency | none => false) then true
  else if m.hasDf = true ∧ 5 ≤ m.dfLen ∧ m.close5mAgo ≠ 0 ∧
      (m.price - m.close5mAgo) / m.close5mAgo * 100 ≤ -5 then true
  else false

/-- Mutable trigger bookkeeping: last call timestamp (seconds), calls made,
calls prevented. -/
structure TriggerState where
  last_ai_call : Option ℚ
  ai_call_count : ℕ
  prevented_calls : ℕ
deriving DecidableEq, Repr

/-- The fields of the `should_call_ai` result dict that the claims read;
`blocked` marks the `urgency: blocked` early return. -/
structure TriggerResult where
  should_call : Bool
  score : ℚ
  blocked : Bool
deriving DecidableEq, Repr

/-- `thresholds['call_threshold']`. -/
def call_threshold : ℚ := 50

/-- `min_interval = timedelta(minutes=3)` in seconds. -/
def min_interval : ℚ := 180

/-- `AICallTrigger.should_call_ai`: a non-emergency call inside the cooldown
returns the blocked result (score 0) counting a prevented call; otherwise
the total score is computed and compared to the threshold, and on a
recommendation the method ITSELF stamps `last_ai_call = now` and increments
`ai_call_count` — before any credit is spent by any caller. -/
def shouldCallAI (st : TriggerState) (now : ℚ) (m : MarketData)
    (news : Option NewsData) (pos : Option PositionData) :
    TriggerState × TriggerResult :=
  let blocked : Bool :=
    match st.last_ai_call with
    | some t => if now - t < min_interval ∧ isEmergency m news = false then true else false
    | none => false
  if blocked then
    ({ st with prevented_calls := st.prevented_calls + 1 }, ⟨false, 0, true⟩)
  else
    let total := totalScore m news pos
    if call_threshold ≤ total then
      ({ st with last_ai_call := some now, ai_call_count := st.ai_call_count + 1 },
        ⟨true, total, false⟩)
    else
      ({ st with prevented_calls := st.prevented_calls + 1 }, ⟨false, total, false⟩)

lemma iteZero_nonneg (c : Prop) [Decidable c] (x : ℚ) (h : 0 ≤ x) :
    0 ≤ (if c then x else 0) := by
  split_ifs with hc
  · exact h
  · exact le_refl 0

lemma sub5m_nonneg (m : MarketData) : 0 ≤ sub5m m := by
  unfold sub5m
  split_ifs with h
  · exact le_min (mul_nonneg (abs_nonneg _) (by norm_num)) (by norm_num)
  · exact le_refl 0

lemma sub1h_nonneg (m : MarketData) : 0 ≤ sub1h m := by
  unfold sub1h
  split_ifs with h
  · exact le_min (mul_nonneg (abs_nonneg _) (by norm_num)) (by norm_num)
  · exact le_refl 0

lemma subVolume_nonneg (m : MarketData) : 0 ≤ subVolume m := by
  unfold subVolume
  split_ifs with h1 h2
  · exact le_min (by nlinarith) (by norm_num)
  · exact le_refl 0
  · exact le_refl 0

lemma subVolatility_nonneg (m : MarketData) : 0 ≤ subVolatility m := by
  unfold subVolatility
  split_ifs with h
  · exact le_min (by nlinarith) (by norm_num)
  · exact le_refl 0

lemma checkMarketEvents_nonneg (m : MarketData) : 0 ≤ checkMarketEvents m := by
  have h5 := sub5m_nonneg m
  have h1 := sub1h_nonneg m
  have hv := subVolume_nonneg m
  have hw := subVolatility_nonneg m
  unfold checkMarketEvents
  split_ifs <;> (try dsimp only) <;> linarith

lemma subRsi_nonneg (a : TechAnalysis) : 0 ≤ subRsi a := by
  unfold subRsi
  split_ifs with h1 h2
  · nlinarith
  · nlinarith
  · exact le_refl 0

lemma checkTechnicalEvents_nonneg (m : MarketData) : 0 ≤ checkTechnicalEvents m := by
  have hr := subRsi_nonneg m.analysis
  have hm : 0 ≤ subMacdCross m.analysis := by
    unfold subMacdCross
    split_ifs <;> norm_num
  have hb : 0 ≤ subBollinger m.analysis := by
    unfold subBollinger
    split_ifs <;> norm_num
  have ha : 0 ≤ subMaAlign m.analysis := by
    unfold subMaAlign
    split_ifs <;> norm_num
  unfold checkTechnicalEvents
  split_ifs <;> linarith

lemma checkNewsEvents_nonneg (n : NewsData) : 0 ≤ checkNewsEvents n := by
  have hi : 0 ≤ subNewsImportant n := by
    unfold subNewsImportant
    split_ifs with h
    · nlinarith
    · exact le_refl 0
  have he : 0 ≤ subNewsEmergency n := by
    unfold subNewsEmergency
    split_ifs <;> norm_num
  have hs : 0 ≤ subNewsSurge n := by
    unfold subNewsSurge
    split_ifs with h
    · exact le_min (by positivity) (by norm_num)
    · exact le_refl 0
  unfold checkNewsEvents
  linarith

lemma checkPositionEvents_nonneg (p : PositionData) : 0 ≤ checkPositionEvents p := by
  have h1 : 0 ≤ subPnlCritical p := by
    unfold subPnlCritical
    split_ifs <;> norm_num
  have h2 : 0 ≤ subTrailing p := by
    unfold subTrailing
    split_ifs <;> norm_num
  have h3 : 0 ≤ subRisk p := by
    unfold subRisk
    split_ifs with h
    · exact le_min (by nlinarith) (by norm_num)
    · exact le_refl 0
  unfold checkPositionEvents
  linarith

lemma checkIndicatorConflicts_nonneg (m : MarketData) : 0 ≤ checkIndicatorConflicts m := by
  unfold checkIndicatorConflicts subConflictRsiMacd subConflictPriceTrend
  split_ifs <;> norm_num

lemma totalScore_nonneg (m : MarketData) (news : Option NewsData)
    (pos : Option PositionData) : 0 ≤ totalScore m news pos := by
  have h1 := checkMarketEvents_nonneg m
  have h2 := checkTechnicalEvents_nonneg m
  have h3 := checkIndicatorConflicts_nonneg m
  unfold totalScore
  cases news with
  | none =>
    cases pos with
    | none => simpa using by linarith
    | some p => have := checkPositionEvents_nonneg p; simpa using by linarith
  | some n =>
    have hn := checkNewsEvents_nonneg n
    cases pos with
    | none => simpa using by linarith
    | some p => have := checkPositionEvents_nonneg p; simpa using by linarith

lemma checkNewsEvents_emergency_ge (n : NewsData) (h : n.emergency = true) :
    (50 : ℚ) ≤ checkNewsEvents n := by
  have hi : 0 ≤ subNewsImportant n := by
    unfold subNewsImportant
    split_ifs with hh
    · nlinarith
    · exact le_refl 0
  have hs : 0 ≤ subNewsSurge n := by
    unfold subNewsSurge
    split_ifs with hh
    · exact le_min (by positivity) (by norm_num)
    · exact le_refl 0
  have he : subNewsEmergency n = 50 := by
    unfold subNewsEmergency
    simp [h]
  unfold checkNewsEvents
  linarith [he.ge]


/-- A fully neutral technical analysis (RSI 50, no crosses, mid band). -/
def neutralAnalysis : TechAnalysis :=
  ⟨50, .neutral, false, false, .neutral, 1/2, .unknown⟩

/-- Market data with no dataframe: every market sub-check degrades to 0. -/
def noDfMarket : MarketData :=
  ⟨0, false, 0, 0, 0, 0, 0, 0, 0, neutralAnalysis⟩

/-- A news record carrying only the emergency flag. -/
def emergencyNews : NewsData :=
  ⟨0, true, 0⟩

/-- A 5-row frame showing a 5-minute crash from 100 to 95 (exactly -5%). -/
def crashMarket : MarketData :=
  ⟨95, true, 5, 100, 0, 0, 0, 0, 0, neutralAnalysis⟩

lemma checkMarketEvents_noDf : checkMarketEvents noDfMarket = 0 := by
  norm_num [checkMarketEvents, noDfMarket]

lemma checkNewsEvents_emergencyNews : checkNewsEvents emergencyNews = 50 := by
  norm_num [checkNewsEvents, subNewsImportant, subNewsEmergency, subNewsSurge, emergencyNews]

lemma totalScore_noDf_emergency : totalScore noDfMarket (some emergencyNews) none = 50 := by
  unfold totalScore
  rw [checkMarketEvents_noDf]
  norm_num [checkTechnicalEvents, checkIndicatorConflicts, noDfMarket,
    checkNewsEvents_emergencyNews]

lemma totalScore_noDf_quiet : totalScore noDfMarket none none = 0 := by
  unfold totalScore
  rw [checkMarketEvents_noDf]
  norm_num [checkTechnicalEvents, checkIndicatorConflicts, noDfMarket]

lemma shouldCallAI_emergency_eval :
    shouldCallAI ⟨some 0, 0, 0⟩ 1000 noDfMarket (some emergencyNews) none =
      (⟨some 1000, 1, 0⟩, ⟨true, 50, false⟩) := by
  unfold shouldCallAI
  norm_num [totalScore_noDf_emergency, call_threshold, min_interval]

lemma shouldCallAI_quiet_eval :
    shouldCallAI ⟨some 0, 0, 0⟩ 1000 noDfMarket none none =
      (⟨some 0, 0, 1⟩, ⟨false, 0, false⟩) := by
  unfold shouldCallAI
  rw [totalScore_noDf_quiet]
  norm_num [call_threshold, min_interval]

/-- C4 counterexample: from a state with 0 calls made, a high-scoring input
(emergency news, 50 points) makes `should_call_ai` ITSELF bump the
calls-made counter to 1 and stamp the cooldown timestamp, with no credit
having been consumed by anyone — refuting the claim that the scorer only
recommends and leaves cooldown/counters to the caller. -/
theorem trigger_updates_itself_counterexample :
    (shouldCallAI ⟨some 0, 0, 0⟩ 1000 noDfMarket (some emergencyNews) none).2.should_call
      = true ∧
    (shouldCallAI ⟨some 0, 0, 0⟩ 1000 noDfMarket (some emergencyNews) none).1.ai_call_count
      = 1 ∧
    (shouldCallAI ⟨some 0, 0, 0⟩ 1000 noDfMarket (some emergencyNews) none).1.last_ai_call
      = some 1000 ∧
    (1 : ℕ) ≠ 0 := by
  rw [shouldCallAI_emergency_eval]
  refine ⟨rfl, rfl, rfl, by decide⟩

/-- C4 amended: `should_call_ai` itself performs the updates, keyed on its
own recommendation rather than on credit consumption: whenever it returns
`should_call = true` it has already stamped `last_ai_call = now` and
incremented `ai_call_count`; whenever it returns `should_call = false`
(blocked or below threshold) both fields are unchanged. -/
theorem trigger_updates_on_recommend (st : TriggerState) (now t : ℚ) (m : MarketData)
    (news : Option NewsData) (pos : Option PositionData)
    (hlast : st.last_ai_call = some t) :
    ((shouldCallAI st now m news pos).2.should_call = true →
      (shouldCallAI st now m news pos).1.ai_call_count = st.ai_call_count + 1 ∧
      (shouldCallAI st now m news pos).1.last_ai_call = some now) ∧
    ((shouldCallAI st now m news pos).2.should_call = false →
      (shouldCallAI st now m news pos).1.ai_call_count = st.ai_call_count ∧
      (shouldCallAI st now m news pos).1.last_ai_call = st.last_ai_call) := by
  simp only [shouldCallAI, hlast]
  split_ifs <;> simp [hlast]

/-- Witness for C4 amended: a cooled-down state plus emergency news gives a
recommendation and counter 0 → 1; the same state on a quiet input leaves
counter and timestamp untouched. -/
theorem trigger_updates_on_recommend_witness :
    ((⟨some 0, 0, 0⟩ : TriggerState).last_ai_call = some 0 ∧
      (shouldCallAI ⟨some 0, 0, 0⟩ 1000 noDfMarket (some emergencyNews) none).2.should_call
        = true ∧
      (shouldCallAI ⟨some 0, 0, 0⟩ 1000 noDfMarket (some emergencyNews) none).1.ai_call_count
        = 0 + 1) ∧
    ((shouldCallAI ⟨some 0, 0, 0⟩ 1000 noDfMarket none none).2.should_call = false ∧
      (shouldCallAI ⟨some 0, 0, 0⟩ 1000 noDfMarket none none).1.ai_call_count = 0) :=
  ⟨⟨rfl, by rw [shouldCallAI_emergency_eval],
    ((trigger_updates_on_recommend ⟨some 0, 0, 0⟩ 1000 0 noDfMarket
      (some emergencyNews) none rfl).1 (by rw [shouldCallAI_emergency_eval])).1⟩,
    ⟨by rw [shouldCallAI_quiet_eval],
    ((trigger_updates_on_recommend ⟨some 0, 0, 0⟩ 1000 0 noDfMarket
      none none rfl).2 (by rw [shouldCallAI_quiet_eval])).1⟩⟩

lemma change5m_crash : change5m crashMarket = 5 := by
  unfold change5m crashMarket
  rw [show ((95 : ℚ) - 100) / 100 * 100 = -5 by norm_num]
  rw [show |(-5 : ℚ)| = 5 by rw [abs_neg]; exact abs_of_nonneg (by norm_num)]

lemma sub5m_crash : sub5m crashMarket = 25 := by
  unfold sub5m
  rw [change5m_crash]
  norm_num [min_def]

lemma checkMarketEvents_crash : checkMarketEvents crashMarket = 25 := by
  unfold checkMarketEvents
  rw [sub5m_crash]
  norm_num [crashMarket]

lemma isEmergency_crash : isEmergency crashMarket none = true := by
  unfold isEmergency crashMarket
  norm_num

lemma totalScore_crash : totalScore crashMarket none none = 25 := by
  unfold totalScore
  rw [checkMarketEvents_crash]
  norm_num [checkTechnicalEvents, checkIndicatorConflicts, crashMarket]

lemma shouldCallAI_crash_eval :
    shouldCallAI ⟨some 0, 0, 0⟩ 10 crashMarket none none =
      (⟨some 0, 0, 1⟩, ⟨false, 25, false⟩) := by
  unfold shouldCallAI
  rw [isEmergency_crash, totalScore_crash]
  norm_num [call_threshold, min_interval]

/-- C5 counterexample: 10 s after the last call, a 5-minute crash of exactly
-5% is an emergency (`_is_emergency` returns True), yet `should_call_ai`
returns `should_call = false`: the crash sub-score is 25, below the 50-point
threshold.  Emergency bypasses only the cooldown early-return, not the score
threshold. -/
theorem emergency_overrides_threshold_counterexample :
    isEmergency crashMarket none = true ∧
    (shouldCallAI ⟨some 0, 0, 0⟩ 10 crashMarket none none).2.should_call = false ∧
    (shouldCallAI ⟨some 0, 0, 0⟩ 10 crashMarket none none).2.score = 25 := by
  refine ⟨isEmergency_crash, ?_, ?_⟩ <;> rw [shouldCallAI_crash_eval]

/-- C5 amended: inside the cooldown a non-emergency input is blocked with
score 0; an emergency bypasses the cooldown early-return but the decision is
still `score ≥ threshold` — in particular an emergency NEWS tag alone forces
`should_call = true` (it contributes 50 points and every other sub-score is
nonnegative), while a price-collapse emergency need not. -/
theorem cooldown_emergency_bypass (st : TriggerState) (now t : ℚ) (m : MarketData)
    (news : Option NewsData) (pos : Option PositionData)
    (hlast : st.last_ai_call = some t) :
    (now - t < min_interval → isEmergency m news = false →
      (shouldCallAI st now m news pos).2.should_call = false ∧
      (shouldCallAI st now m news pos).2.score = 0 ∧
      (shouldCallAI st now m news pos).2.blocked = true) ∧
    (∀ n : NewsData, news = some n → n.emergency = true →
      (shouldCallAI st now m news pos).2.should_call = true) := by
  constructor
  · intro hcd hem
    simp [shouldCallAI, hlast, hcd, hem]
  · intro n hn hem
    subst hn
    have hemg : isEmergency m (some n) = true := by
      simp [isEmergency, hem]
    have htot : call_threshold ≤ totalScore m (some n) pos := by
      have h1 := checkMarketEvents_nonneg m
      have h2 := checkTechnicalEvents_nonneg m
      have h3 := checkIndicatorConflicts_nonneg m
      have hn50 := checkNewsEvents_emergency_ge n hem
      unfold totalScore call_threshold
      cases pos with
      | none => simpa using by linarith
      | some p =>
        have h4 := checkPositionEvents_nonneg p
        simpa using by linarith
    simp [shouldCallAI, hlast, hemg, htot]

/-- Witness for C5 amended: 10 s after the last call a quiet input is
blocked with score 0, and emergency news under the same cooldown still
yields a recommendation. -/
theorem cooldown_emergency_bypass_witness :
    ((10 : ℚ) - 0 < min_interval ∧ isEmergency noDfMarket none = false ∧
      (shouldCallAI ⟨some 0, 0, 0⟩ 10 noDfMarket none none).2.should_call = false ∧
      (shouldCallAI ⟨some 0, 0, 0⟩ 10 noDfMarket none none).2.score = 0) ∧
    (emergencyNews.emergency = true ∧
      (shouldCallAI ⟨some 0, 0, 0⟩ 10 noDfMarket (some emergencyNews) none).2.should_call
        = true) :=
  ⟨⟨by norm_num [min_interval], by norm_num [isEmergency, noDfMarket],
    ((cooldown_emergency_bypass ⟨some 0, 0, 0⟩ 10 0 noDfMarket none none rfl).1
      (by norm_num [min_interval]) (by norm_num [isEmergency, noDfMarket])).1,
    ((cooldown_emergency_bypass ⟨some 0, 0, 0⟩ 10 0 noDfMarket none none rfl).1
      (by norm_num [min_interval]) (by norm_num [isEmergency, noDfMarket])).2.1⟩,
    ⟨rfl,
    (cooldown_emergency_bypass ⟨some 0, 0, 0⟩ 10 0 noDfMarket (some emergencyNews)
      none rfl).2 emergencyNews rfl rfl⟩⟩

/-- A technical analysis whose RSI sits at 0 (deep oversold), all other
indicators neutral. -/
def oversoldAnalysis : TechAnalysis :=
  ⟨0, .neutral, false, false, .neutral, 1/2, .unknown⟩

/-- A 20-row flat market carrying the RSI-0 analysis; only the RSI-extremity
sub-score fires. -/
def oversoldMarket : MarketData :=
  ⟨100, true, 20, 100, 100, 0, 0, 0, 0, oversoldAnalysis⟩

/-- C9 (code bug): the RSI-oversold sub-score `(30 - rsi) * 0.5` reaches 15
at RSI 0, exceeding the cap of 12.5 its own source comment documents, so
"no sub-score exceeds its documented cap" fails on the code.  The whole
technical check on this input is exactly that single 15-point sub-score. -/
theorem rsi_oversold_cap_bug :
    subRsi oversoldAnalysis = 15 ∧
    checkTechnicalEvents oversoldMarket = 15 ∧
    (25 : ℚ) / 2 < 15 := by
  have h1 : subRsi oversoldAnalysis = 15 := by
    norm_num [subRsi, oversoldAnalysis]
  have h2 : subMacdCross oversoldAnalysis = 0 := by
    norm_num [subMacdCross, oversoldAnalysis]
  have h3 : subBollinger oversoldAnalysis = 0 := by
    norm_num [subBollinger, oversoldAnalysis]
  have h4 : subMaAlign oversoldAnalysis = 0 := by
    simp [subMaAlign, oversoldAnalysis]
  refine ⟨h1, ?_, by norm_num⟩
  unfold checkTechnicalEvents
  norm_num [oversoldMarket, h1, h2, h3, h4]

/- ═══════════════════════ SmartMasterController (src/master/controller_v3.py) ═══════════════════════ -/

/-- The `MarketRegime` enum. -/
inductive MarketRegime
  | strongUptrend
  | weakUptrend
  | sideways
  | weakDowntrend
  | strongDowntrend
  | unknown
deriving DecidableEq, Repr

/-- News sentiment tags carried through merges. -/
inductive Sentiment
  | neutral
  | bullish
  | bearish
deriving DecidableEq, Repr

/-- The `source` tags the merge paths write. -/
inductive ResultSource
  | localSrc
  | aiDebate
  | aiDebatePrimary
  | localWithAiContext
  | merged
deriving DecidableEq, Repr

/-- The analysis-result dict fields that `_merge_results` reads or writes
(indicator payloads omitted: no claim reads them). -/
structure AnalysisRec where
  regime : MarketRegime
  confidence : ℚ
  volatility : ℚ
  news_sentiment : Sentiment
  news_urgency : ℚ
  conflict : Option (MarketRegime × MarketRegime)
  source : ResultSource
deriving DecidableEq, Repr

/-- The `mode` argument of `_merge_results`. -/
inductive MergeMode
  | aiPrimary
  | localPrimary
  | balancedMode
deriving DecidableEq, Repr

/-- `SmartMasterController._average_results`: external result with
confidence re-weighted 0.3 local / 0.7 external. -/
def averageResults (localR aiR : AnalysisRec) : AnalysisRec :=
  { aiR with
    confidence := localR.confidence * (3/10) + aiR.confidence * (7/10),
    volatility := localR.volatility,
    source := .merged }

/-- `SmartMasterController._merge_results`.  `ai_primary` copies the
external result (only volatility and source changed); `local_primary` keeps
the local result, annotates the external news fields, and on a regime
mismatch scales confidence by 0.8 and records a conflict pair; any other
mode averages.  Note: `news_urgency` is never consulted. -/
def mergeResults (localR aiR : AnalysisRec) (mode : MergeMode) : AnalysisRec :=
  match mode with
  | .aiPrimary =>
    { aiR with volatility := localR.volatility, source := .aiDebatePrimary }
  | .localPrimary =>
    let base := { localR with
      news_sentiment := aiR.news_sentiment, news_urgency := aiR.news_urgency }
    if aiR.regime ≠ localR.regime then
      { base with
        confidence := base.confidence * (4/5),
        conflict := some (localR.regime, aiR.regime),
        source := .localWithAiContext }
    else { base with source := .localWithAiContext }
  | .balancedMode => averageResults localR aiR

/-- A local SIDEWAYS result at confidence 0.5. -/
def localSideways : AnalysisRec :=
  ⟨.sideways, 1/2, 1/20, .neutral, 0, none, .localSrc⟩

/-- An external SIDEWAYS result, confidence 0.5, urgency 5 (BALANCED band). -/
def aiSideways : AnalysisRec :=
  ⟨.sideways, 1/2, 1/20, .neutral, 5, none, .aiDebate⟩

/-- C6 counterexample: fusing agreeing SIDEWAYS results with external
urgency 5 (strictly between 3 and 7) leaves the fused confidence exactly at
the local 0.5 — nothing is boosted above the local confidence and no 0.95
cap exists in this fusion; `news_urgency` never enters `_merge_results`. -/
theorem balanced_boost_counterexample :
    (3 : ℚ) < aiSideways.news_urgency ∧ aiSideways.news_urgency < 7 ∧
    aiSideways.regime = localSideways.regime ∧
    (mergeResults localSideways aiSideways .aiPrimary).confidence
      = localSideways.confidence ∧
    ¬ localSideways.confidence
      < (mergeResults localSideways aiSideways .aiPrimary).confidence ∧
    (mergeResults localSideways aiSideways .aiPrimary).conflict = none := by
  refine ⟨by norm_num [aiSideways], by norm_num [aiSideways], rfl, rfl, ?_, rfl⟩
  rw [show (mergeResults localSideways aiSideways .aiPrimary).confidence
    = localSideways.confidence from rfl]
  exact lt_irrefl _

/-- C6 amended: `_merge_results` ignores `news_urgency` entirely.  In
`ai_primary` mode the external regime, confidence and conflict field pass
through unchanged (volatility comes from the local side).  In
`local_primary` mode the local regime is always kept: agreeing regimes
leave the confidence untouched, disagreeing regimes scale the local
confidence by 0.8 and attach a conflict record holding the local and the
external regime. -/
theorem merge_results_spec (localR aiR : AnalysisRec) :
    ((mergeResults localR aiR .aiPrimary).regime = aiR.regime ∧
      (mergeResults localR aiR .aiPrimary).confidence = aiR.confidence ∧
      (mergeResults localR aiR .aiPrimary).conflict = aiR.conflict ∧
      (mergeResults localR aiR .aiPrimary).volatility = localR.volatility) ∧
    (aiR.regime = localR.regime →
      (mergeResults localR aiR .localPrimary).regime = localR.regime ∧
      (mergeResults localR aiR .localPrimary).confidence = localR.confidence ∧
      (mergeResults localR aiR .localPrimary).conflict = localR.conflict) ∧
    (aiR.regime ≠ localR.regime →
      (mergeResults localR aiR .localPrimary).regime = localR.regime ∧
      (mergeResults localR aiR .localPrimary).confidence = localR.confidence * (4/5) ∧
      (mergeResults localR aiR .localPrimary).conflict
        = some (localR.regime, aiR.regime)) := by
  refine ⟨⟨rfl, rfl, rfl, rfl⟩, ?_, ?_⟩
  · intro h
    simp [mergeResults, h]
  · intro h
    simp [mergeResults, h]

/-- An external STRONG_UPTREND result at confidence 0.9, urgency 5. -/
def aiUptrend : AnalysisRec :=
  ⟨.strongUptrend, 9/10, 1/20, .bullish, 5, none, .aiDebate⟩

/-- Witness for C6 amended at concrete agreeing and disagreeing pairs. -/
theorem merge_results_spec_witness :
    ((mergeResults localSideways aiSideways .aiPrimary).confidence
      = aiSideways.confidence) ∧
    (aiSideways.regime = localSideways.regime ∧
      (mergeResults localSideways aiSideways .localPrimary).confidence
        = localSideways.confidence) ∧
    (aiUptrend.regime ≠ localSideways.regime ∧
      (mergeResults localSideways aiUptrend .localPrimary).confidence
        = localSideways.confidence * (4/5) ∧
      (mergeResults localSideways aiUptrend .localPrimary).conflict
        = some (localSideways.regime, aiUptrend.regime)) :=
  ⟨(merge_results_spec localSideways aiSideways).1.2.1,
    ⟨rfl, ((merge_results_spec localSideways aiSideways).2.1 rfl).2.1⟩,
    ⟨by decide,
      ((merge_results_spec localSideways aiUptrend).2.2 (by decide)).2.1,
      ((merge_results_spec localSideways aiUptrend).2.2 (by decide)).2.2⟩⟩

/-- Strategy identifiers appearing in `_adjust_strategies`. -/
inductive Strategy
  | dca
  | grid
  | momentum
  | trailing
  | multiIndicator
  | scalping
  | breakout
  | longShort
deriving DecidableEq, Repr

/-- The `decision_guide` values. -/
inductive DecisionGuide
  | chartPriority
  | newsPriority
  | balanced
  | blocked
deriving DecidableEq, Repr

/-- The controller's `active_strategies` dict. -/
structure StrategySet where
  spot : List Strategy
  futures : List Strategy
deriving DecidableEq, Repr

/-- Volatility buckets: LOW < 5%, MED 5–10%, HIGH above. -/
inductive VolLevel
  | low
  | med
  | high
deriving DecidableEq, Repr

/-- The volatility classification at the top of `_adjust_strategies`. -/
def volLevel (v : ℚ) : VolLevel :=
  if v < 1/20 then .low else if v < 1/10 then .med else .high

/-- `SmartMasterController._adjust_strategies`: regime × volatility lookup,
then the NEWS_PRIORITY conservative narrowing at urgency ≥ 7.  The
`UNKNOWN` regime matches no branch and keeps the previous strategies. -/
def adjustStrategies (prev : StrategySet) (regime : MarketRegime) (volatility : ℚ)
    (guide : DecisionGuide) (urgency : ℚ) : StrategySet :=
  let vl := volLevel volatility
  let s1 : StrategySet :=
    match regime with
    | .strongDowntrend => ⟨[], []⟩
    | .weakDowntrend =>
      match vl with
      | .high => ⟨[.momentum], []⟩
      | .med => ⟨[.multiIndicator], []⟩
      | .low => ⟨[.dca], []⟩
    | .sideways =>
      match vl with
      | .high => ⟨[.scalping], [.scalping]⟩
      | _ => ⟨[.grid], [.scalping]⟩
    | .weakUptrend =>
      match vl with
      | .high => ⟨[.momentum, .trailing], [.longShort]⟩
      | _ => ⟨[.multiIndicator], [.longShort]⟩
    | .strongUptrend =>
      match vl with
      | .high => ⟨[.momentum, .breakout], [.longShort]⟩
      | _ => ⟨[.multiIndicator, .breakout], [.longShort]⟩
    | .unknown => prev
  if guide = .newsPriority ∧ 7 ≤ urgency then
    if regime = .weakUptrend ∨ regime = .strongUptrend then
      match vl with
      | .high => ⟨[.trailing], []⟩
      | _ => ⟨[.multiIndicator], []⟩
    else ⟨[], []⟩
  else s1

/-- C7: for every volatility, guide, urgency and previous strategy set,
STRONG_DOWNTREND selects the empty spot and futures strategy sets, and the
NEWS_PRIORITY narrowing keeps them empty. -/
theorem strong_downtrend_empty (prev : StrategySet) (volatility urgency : ℚ)
    (guide : DecisionGuide) :
    adjustStrategies prev .strongDowntrend volatility guide urgency = ⟨[], []⟩ := by
  unfold adjustStrategies
  split_ifs with h1 h2
  · simp at h2
  · rfl
  · rfl

/- ═══════════════════════ PortfolioManager (src/master/portfolio_manager.py) ═══════════════════════ -/

/-- A scanned candidate as consumed by the selection routines: ticker plus
composite score (the other scan fields are never read by them). -/
structure Candidate where
  ticker : String
  score : ℚ
deriving DecidableEq, Repr

/-- `self.core_coins`. -/
def coreCoins : List String := ["KRW-BTC", "KRW-ETH"]

/-- `PortfolioManager._default_ai_selection`: take the top 3 candidates and
allocate each `score / total_score`.  No clamping of any kind is applied. -/
def defaultAiSelection (candidates : List Candidate) : List (String × ℚ) :=
  let top3 := candidates.take 3
  let total := (top3.map Candidate.score).sum
  top3.map (fun c => (c.ticker, c.score / total))

/-- The filter inside `_parse_ai_response`: keep entries with a truthy
ticker and a strictly positive allocation. -/
def filterAllocations (items : List (String × ℚ)) : List (String × ℚ) :=
  items.filter (fun p => decide (p.1 ≠ "") && decide (0 < p.2))

/-- The renormalization at the end of `_parse_ai_response`: rescale only
when the total is positive and differs from 1 by more than 0.01. -/
def normalizeAllocations (xs : List (String × ℚ)) : List (String × ℚ) :=
  let total := (xs.map Prod.snd).sum
  if 0 < total ∧ 1/100 < |total - 1| then xs.map (fun p => (p.1, p.2 / total)) else xs

/-- The allocation list produced by `_parse_ai_response` from the decoded
items: filter, then conditionally renormalize. -/
def parseAllocations (items : List (String × ℚ)) : List (String × ℚ) :=
  normalizeAllocations (filterAllocations items)

lemma list_sum_map_div (l : List ℚ) (t : ℚ) :
    (l.map (fun x => x / t)).sum = l.sum / t := by
  induction l with
  | nil => simp
  | cons x xs ih => simp [ih, add_div]

lemma sum_snd_candidates (l : List Candidate) (t : ℚ) :
    ((l.map fun c => (c.ticker, c.score / t)).map Prod.snd).sum
      = (l.map Candidate.score).sum / t := by
  induction l with
  | nil => simp
  | cons x xs ih => simp only [List.map_cons, List.sum_cons, ih, add_div]

lemma sum_snd_pairs (l : List (String × ℚ)) (t : ℚ) :
    ((l.map fun p => (p.1, p.2 / t)).map Prod.snd).sum
      = (l.map Prod.snd).sum / t := by
  induction l with
  | nil => simp
  | cons x xs ih => simp only [List.map_cons, List.sum_cons, ih, add_div]

/-- Three plausible top candidates: a non-core coin far ahead of the pack. -/
def topCandidates : List Candidate :=
  [⟨"KRW-XRP", 100⟩, ⟨"KRW-BTC", 20⟩, ⟨"KRW-ETH", 20⟩]

/-- C8 counterexample: the fallback selection gives the non-core KRW-XRP a
fraction of 5/7 ≈ 0.714 > 0.40 = maxFraction; `min_allocation` and
`max_allocation` are set in `__init__` but never applied anywhere, so the
claimed clamp to [0.05, 0.40] does not hold. -/
theorem allocation_clamp_counterexample :
    defaultAiSelection topCandidates =
      [("KRW-XRP", 5/7), ("KRW-BTC", 1/7), ("KRW-ETH", 1/7)] ∧
    ¬ "KRW-XRP" ∈ coreCoins ∧
    (2/5 : ℚ) < 5/7 := by
  refine ⟨?_, by decide, by norm_num⟩
  norm_num [defaultAiSelection, topCandidates]

/-- C8 amended: the fractions do sum to 1 within the code's 0.01 tolerance —
the fallback selection sums to exactly 1 whenever its top-3 total score is
nonzero, and the parse-path normalization leaves a positive allocation list
summing to within 0.01 of 1 — but no clamping into
[minFraction, maxFraction] is performed on either path. -/
theorem allocation_sum_spec :
    (∀ candidates : List Candidate,
      ((candidates.take 3).map Candidate.score).sum ≠ 0 →
      ((defaultAiSelection candidates).map Prod.snd).sum = 1) ∧
    (∀ xs : List (String × ℚ), xs ≠ [] → (∀ p ∈ xs, 0 < p.2) →
      |((normalizeAllocations xs).map Prod.snd).sum - 1| ≤ 1/100) := by
  constructor
  · intro candidates htot
    simp only [defaultAiSelection]
    rw [sum_snd_candidates, div_self htot]
  · intro xs hne hpos
    have hmem : ∀ a ∈ xs.map Prod.snd, 0 < a := by
      intro a ha
      rcases List.mem_map.mp ha with ⟨p, hp, rfl⟩
      exact hpos p hp
    have hnil : xs.map Prod.snd ≠ [] := by
      intro h
      exact hne (List.map_eq_nil_iff.mp h)
    have htpos : 0 < (xs.map Prod.snd).sum := List.sum_pos _ hmem hnil
    simp only [normalizeAllocations]
    split_ifs with h
    · rw [sum_snd_pairs, div_self (ne_of_gt htpos)]
      norm_num
    · push_neg at h
      exact h htpos
  

/-- Witness for C8 amended: the concrete top-3 list sums to 1; a positive
parse list summing to 3/4 is renormalized to within tolerance. -/
theorem allocation_sum_spec_witness :
    ((topCandidates.take 3).map Candidate.score).sum ≠ 0 ∧
    ((defaultAiSelection topCandidates).map Prod.snd).sum = 1 ∧
    |((normalizeAllocations [("KRW-BTC", 1/2), ("KRW-ETH", 1/4)]).map Prod.snd).sum - 1|
      ≤ 1/100 :=
  ⟨by norm_num [topCandidates],
    allocation_sum_spec.1 topCandidates (by norm_num [topCandidates]),
    allocation_sum_spec.2 [("KRW-BTC", 1/2), ("KRW-ETH", 1/4)] (by simp)
      (by
        intro p hp
        rcases List.mem_cons.mp hp with rfl | hp2
        · norm_num
        rcases List.mem_cons.mp hp2 with rfl | hp3
        · norm_num
        · cases hp3)⟩

/- ═══════════════════════ DynamicWorkerManager (src/master/portfolio_manager.py) ═══════════════════════ -/

/-- `DynamicWorkerManager` state: the tickers with a running task, the
budget registry, and a counter of `asyncio.create_task` calls (the only
observable effect of spawning). -/
structure WorkerState where
  active_workers : List String
  worker_budgets : List (String × ℚ)
  spawned : ℕ
deriving DecidableEq, Repr

/-- `DynamicWorkerManager.add_worker`: an existing active worker makes the
call return immediately (warning only); otherwise a task is spawned and the
ticker is registered with its budget. -/
def addWorker (st : WorkerState) (ticker : String) (budget : ℚ) : WorkerState :=
  if ticker ∈ st.active_workers then st
  else ⟨ticker :: st.active_workers, (ticker, budget) :: st.worker_budgets, st.spawned + 1⟩

/-- C10: calling `add_worker` for a ticker that already has an active worker
is a no-op: the state is returned unchanged, so no second task is spawned
and the recorded budget is not overwritten with the new value. -/
theorem add_worker_existing_noop (st : WorkerState) (ticker : String) (budget : ℚ)
    (h : ticker ∈ st.active_workers) :
    addWorker st ticker budget = st ∧
    (addWorker st ticker budget).spawned = st.spawned ∧
    (addWorker st ticker budget).worker_budgets = st.worker_budgets := by
  have heq : addWorker st ticker budget = st := by
    simp [addWorker, h]
  exact ⟨heq, by rw [heq], by rw [heq]⟩

/-- Witness for C10: re-adding KRW-BTC with a different budget leaves the
single-worker state (budget 10000, one spawn) exactly as it was. -/
theorem add_worker_existing_noop_witness :
    ("KRW-BTC" ∈ (⟨["KRW-BTC"], [("KRW-BTC", 10000)], 1⟩ : WorkerState).active_workers) ∧
    addWorker ⟨["KRW-BTC"], [("KRW-BTC", 10000)], 1⟩ "KRW-BTC" 99999
      = ⟨["KRW-BTC"], [("KRW-BTC", 10000)], 1⟩ :=
  ⟨by decide,
    (add_worker_existing_noop ⟨["KRW-BTC"], [("KRW-BTC", 10000)], 1⟩ "KRW-BTC" 99999
      (by decide)).1⟩
